import Mathlib

/-!
Shallow embedding of `src/AnalystPortal.js` (the `TravelDataAnalyst` React
component).  The component's state hooks (`files`, `isProcessing`, `result`,
`error`, `activeTab`) become a `PortalState` record; the event handlers
`onFileChange`, `removeFile` and `processDocuments`, and the helper
`formatCurrency`, become functions on that record.  The extraction
collaborator call inside `processDocuments` (the Gemini request plus
`JSON.parse(response.text || "{}")`) is modelled by passing its outcome as an
explicit parameter.  Because the source casts the parsed JSON to
`ExtractionResult` without any runtime checking, the parsed candidate is
modelled with every field optional (a JSON object may omit any of them).
-/

/-- Lifecycle status of an uploaded file, as declared by the `FileWithStatus`
TypeScript interface: `'pending' | 'processing' | 'completed' | 'error'`. -/
inductive FileStatus
  | pending
  | processing
  | completed
  | error
deriving Repr, DecidableEq

/-- One entry of the `files` state array: the uploaded file (opaque content,
modelled as a string), the id generated at ingestion, and the status. -/
structure FileWithStatus where
  file : String
  id : String
  status : FileStatus
deriving Repr, DecidableEq

/-- Raw room record as parsed from the collaborator's JSON; every field may be
absent because the source never validates the parsed object. -/
structure RawRoom where
  type : Option String
  price : Option Int
deriving Repr, DecidableEq

/-- Raw activity record as parsed from the collaborator's JSON. -/
structure RawActivity where
  name : Option String
  price : Option Int
  isIncluded : Option Bool
deriving Repr, DecidableEq

/-- Raw resort record as parsed from the collaborator's JSON. -/
structure RawResort where
  resortName : Option String
  currency : Option String
  locationType : Option String
  rooms : Option (List RawRoom)
  activities : Option (List RawActivity)
deriving Repr, DecidableEq

/-- Raw location record as parsed from the collaborator's JSON. -/
structure RawLocation where
  name : Option String
  resorts : Option (List RawResort)
deriving Repr, DecidableEq

/-- Raw top-level candidate as parsed from the collaborator's JSON; the value
stored by `setResult(extractedData)`.  `JSON.parse("{}")` is `⟨none⟩`. -/
structure RawExtraction where
  locations : Option (List RawLocation)
deriving Repr, DecidableEq

/-- The `activeTab` state: `'preview' | 'json'`. -/
inductive Tab
  | preview
  | json
deriving Repr, DecidableEq

/-- The component's state: the five `useState` hooks of `TravelDataAnalyst`. -/
structure PortalState where
  files : List FileWithStatus
  isProcessing : Bool
  result : Option RawExtraction
  error : Option String
  activeTab : Tab
deriving Repr, DecidableEq

/-- The initial state of the component: `useState([])`, `useState(false)`,
`useState(null)`, `useState(null)`, `useState('preview')`. -/
def initState : PortalState :=
  { files := [], isProcessing := false, result := none, error := none,
    activeTab := Tab.preview }

/-- Model of `onFileChange`: appends the selected files to the list, each with a fresh
id and status `'pending'`.  The browser-generated ids are inputs here. -/
def onFileChange (st : PortalState) (newFiles : List (String × String)) :
    PortalState :=
  { st with
      files := st.files ++
        newFiles.map (fun p => { file := p.1, id := p.2, status := FileStatus.pending }) }

/-- Model of `removeFile(id)`: `setFiles(prev => prev.filter(f => f.id !== id))`. -/
def removeFile (st : PortalState) (id : String) : PortalState :=
  { st with files := st.files.filter (fun f => f.id != id) }

/-- The error message used when the caught exception has no message:
`err.message || "Failed to extract data. ..."`. -/
def defaultErrorMessage : String :=
  "Failed to extract data. Ensure the files are valid PDFs and your API key is correct."

/-- Outcome of the collaborator call in `processDocuments`: either the
candidate parsed from `response.text || "{}"`, or a thrown exception
(from `fileToBase64`, `generateContent` or `JSON.parse`) with its optional
message. -/
inductive CollabOutcome
  | ok (parsed : RawExtraction)
  | failure (message : Option String)
deriving Repr, DecidableEq

/-- The state after `setIsProcessing(true); setError(null); setResult(null)`,
i.e. just before the collaborator is invoked. -/
def preCallState (st : PortalState) : PortalState :=
  { st with isProcessing := true, error := none, result := none }

/-- Model of `processDocuments`: returns immediately if `files.length === 0`;
otherwise resets `error`/`result`, invokes the collaborator, and on success
publishes the parsed candidate via `setResult` and marks every file
`'completed'`, while on a thrown error it only records the message via
`setError`.  `finally` clears `isProcessing`. -/
def processDocuments (st : PortalState) (outcome : CollabOutcome) :
    PortalState :=
  if st.files.length = 0 then st
  else
    match outcome with
    | CollabOutcome.ok parsed =>
        { preCallState st with
            result := some parsed,
            files := (preCallState st).files.map
              (fun f => { f with status := FileStatus.completed }),
            isProcessing := false }
    | CollabOutcome.failure msg =>
        { preCallState st with
            error := some (msg.getD defaultErrorMessage),
            isProcessing := false }

/-- The `disabled` condition of the "Run Extraction" button:
`files.length === 0 || isProcessing`. -/
def runButtonDisabled (st : PortalState) : Bool :=
  st.files.length = 0 || st.isProcessing

/-- The "Reset Module" button: `setError(null)`. -/
def dismissError (st : PortalState) : PortalState :=
  { st with error := none }

/-- Tab switching: `setActiveTab(t)`. -/
def setActiveTab (st : PortalState) (t : Tab) : PortalState :=
  { st with activeTab := t }

/-- A resort occurs somewhere in a candidate's location tree (absent
`locations`/`resorts` fields read as empty lists). -/
abbrev resortInResult (r : RawResort) (res : RawExtraction) : Prop :=
  ∃ loc ∈ res.locations.getD [], r ∈ loc.resorts.getD []

/-- Result of `formatCurrency`, keeping the two branches apart: `intl code a`
is the `Intl.NumberFormat('en-US', {style:'currency', currency: code})`
rendering of `a`, and `fallback cur a` is the catch-branch string
`` `${currency} ${amount}` ``. -/
inductive CurrencyDisplay
  | intl (code : String) (amount : Int)
  | fallback (currency : String) (amount : Int)
deriving Repr, DecidableEq

/-- JavaScript `toUpperCase`, modelled per-character on ASCII (structurally on the
character list, so that it evaluates). -/
def toUpperAscii (s : String) : String :=
  String.mk (s.data.map Char.toUpper)

/-- ECMA-402 `IsWellFormedCurrencyCode`: exactly three ASCII letters.
`Intl.NumberFormat` throws a `RangeError` exactly when the currency argument
fails this test; a well-formed but unknown code is formatted, not thrown. -/
def isWellFormedCurrencyCode (c : String) : Bool :=
  c.length = 3 && c.data.all (fun ch => ch.isAlpha)

/-- Model of `formatCurrency(amount, currency)`: uppercases the token (empty string
falls back to `'USD'` via `||`), passes it to `Intl.NumberFormat` when it has
exactly 3 characters and `'USD'` otherwise, and returns the catch-branch
fallback string exactly when the constructor throws (ill-formed 3-character
code).  `.format(amount)` itself never throws. -/
def formatCurrency (amount : Int) (currency : String) : CurrencyDisplay :=
  let code := if currency = "" then "USD" else toUpperAscii currency
  let arg := if code.length = 3 then code else "USD"
  if isWellFormedCurrencyCode arg then CurrencyDisplay.intl arg amount
  else CurrencyDisplay.fallback currency amount

/-- One observable interaction with the component: an event handler firing. -/
inductive Step : PortalState → PortalState → Prop
  | fileChange (st : PortalState) (newFiles : List (String × String)) :
      Step st (onFileChange st newFiles)
  | remove (st : PortalState) (id : String) : Step st (removeFile st id)
  | process (st : PortalState) (outcome : CollabOutcome) :
      Step st (processDocuments st outcome)
  | dismiss (st : PortalState) : Step st (dismissError st)
  | tab (st : PortalState) (t : Tab) : Step st (setActiveTab st t)

/-- States reachable from the initial render through event handlers. -/
inductive Reachable : PortalState → Prop
  | init : Reachable initState
  | step {s t : PortalState} : Reachable s → Step s t → Reachable t

/-- A state holding one still-pending uploaded file. -/
def oneFileState : PortalState :=
  { initState with files := [{ file := "brief.pdf", id := "f1", status := FileStatus.pending }] }

/-- A state whose single file already completed an earlier run. -/
def completedFileState : PortalState :=
  { initState with files := [{ file := "brief.pdf", id := "f1", status := FileStatus.completed }] }

/-- A state in the middle of a run: `isProcessing` is `true`. -/
def inflightState : PortalState :=
  { initState with
      files := [{ file := "brief.pdf", id := "f1", status := FileStatus.pending }],
      isProcessing := true }

/-- A state holding a previously published result. -/
def priorResultState : PortalState :=
  { initState with
      files := [{ file := "brief.pdf", id := "f1", status := FileStatus.pending }],
      result := some { locations := some [] } }

/-- A resort that is missing its `currency` field. -/
def missingCurrencyResort : RawResort :=
  { resortName := some "Resort Y"
    currency := none
    locationType := some "Component"
    rooms := some [{ type := some "room", price := some 300 }]
    activities := some [] }

/-- A candidate whose only resort is missing its `currency` field. -/
def missingCurrencyCandidate : RawExtraction :=
  { locations := some [⟨some "Maldives", some [missingCurrencyResort]⟩] }

/-- A Bundle-classified resort carrying an included activity with a positive
price — the pattern §4.2's classification invariant forbids. -/
def bundleViolation : RawResort :=
  { resortName := some "Resort X"
    currency := some "EUR"
    locationType := some "Bundle"
    rooms := some [{ type := some "rate", price := some 500 }]
    activities := some [{ name := some "spa", price := some 50, isIncluded := some true }] }

/-- A candidate containing `bundleViolation`. -/
def bundleCandidate : RawExtraction :=
  { locations := some [⟨some "Finland", some [bundleViolation]⟩] }

/-- The empty candidate `{locations: []}`. -/
def emptyCandidate : RawExtraction :=
  { locations := some [] }

/-! ## Claims -/

/-- C1, counterexample: after a failed run (`processDocuments` with a thrown
collaborator error) the batch's single document is still `'pending'`, not
`'error'`: the catch branch never touches the files' statuses, so the
documents do not "all end in state 'error'" as the claim states. -/
theorem c1_counterexample :
    (processDocuments oneFileState (CollabOutcome.failure none)).files
        = [{ file := "brief.pdf", id := "f1", status := FileStatus.pending }] ∧
    FileStatus.pending ≠ FileStatus.error := by
  exact ⟨rfl, by decide⟩

/-- C1, amended: on a successful run every file in the batch ends
`'completed'`; on a failed run the files are left exactly as they were —
no file is ever set to `'error'`. -/
theorem c1_run_final_statuses (st : PortalState) (c : RawExtraction)
    (msg : Option String) (h : st.files.length ≠ 0) :
    (processDocuments st (CollabOutcome.ok c)).files
        = st.files.map (fun f => { f with status := FileStatus.completed }) ∧
    (processDocuments st (CollabOutcome.failure msg)).files = st.files := by
  constructor <;> simp [processDocuments, preCallState, h]

/-- C1, witness for `c1_run_final_statuses` at a one-file batch. -/
theorem c1_run_final_statuses_witness :
    oneFileState.files.length ≠ 0 ∧
    ((processDocuments oneFileState (CollabOutcome.ok emptyCandidate)).files
        = oneFileState.files.map (fun f => { f with status := FileStatus.completed }) ∧
     (processDocuments oneFileState (CollabOutcome.failure none)).files
        = oneFileState.files) :=
  ⟨by decide, c1_run_final_statuses oneFileState emptyCandidate none (by decide)⟩

/-- C2, counterexample: a candidate whose resort is missing the required
`currency` field is published as-is (`result` holds it, `error` is `none`) —
the run produces neither a schema-conforming result nor a
`ValidationError(MissingField)`. -/
theorem c2_counterexample :
    (processDocuments oneFileState (CollabOutcome.ok missingCurrencyCandidate)).result
        = some missingCurrencyCandidate ∧
    (processDocuments oneFileState (CollabOutcome.ok missingCurrencyCandidate)).error
        = none ∧
    missingCurrencyResort.currency = none ∧
    resortInResult missingCurrencyResort missingCurrencyCandidate := by
  refine ⟨rfl, rfl, rfl, ?_⟩
  decide

/-- C2, amended: the run performs no validation at all — whatever candidate
the collaborator returns (schema-conforming or not) is published unchanged
and no error is recorded. -/
theorem c2_publishes_unvalidated (st : PortalState) (c : RawExtraction)
    (h : st.files.length ≠ 0) :
    (processDocuments st (CollabOutcome.ok c)).result = some c ∧
    (processDocuments st (CollabOutcome.ok c)).error = none := by
  constructor <;> simp [processDocuments, preCallState, h]

/-- C2, witness for `c2_publishes_unvalidated` at the malformed candidate. -/
theorem c2_publishes_unvalidated_witness :
    oneFileState.files.length ≠ 0 ∧
    ((processDocuments oneFileState (CollabOutcome.ok missingCurrencyCandidate)).result
        = some missingCurrencyCandidate ∧
     (processDocuments oneFileState (CollabOutcome.ok missingCurrencyCandidate)).error
        = none) :=
  ⟨by decide, c2_publishes_unvalidated oneFileState missingCurrencyCandidate (by decide)⟩

/-- C3, counterexample: a published result contains a resort classified
`"Bundle"` that carries an activity with `isIncluded = true` and
`price = 50 > 0`; its `locationType` was not corrected — the code applies no
normalization to the candidate. -/
theorem c3_counterexample :
    resortInResult bundleViolation
        (((processDocuments oneFileState (CollabOutcome.ok bundleCandidate)).result).getD
          { locations := none }) ∧
    bundleViolation.locationType = some "Bundle" ∧
    ∃ a ∈ bundleViolation.activities.getD [],
      a.isIncluded = some true ∧ 0 < a.price.getD 0 := by
  refine ⟨?_, rfl, ?_⟩ <;> decide

/-- C3, amended: every resort of the raw candidate — including one whose
`"Bundle"` classification disagrees with its activity pricing — reappears
verbatim in the published result; no classification repair is performed. -/
theorem c3_no_classification_repair (st : PortalState) (c : RawExtraction)
    (r : RawResort) (h : st.files.length ≠ 0) (hr : resortInResult r c) :
    ∃ pub, (processDocuments st (CollabOutcome.ok c)).result = some pub ∧
      resortInResult r pub := by
  refine ⟨c, ?_, hr⟩
  simp [processDocuments, preCallState, h]

/-- C3, witness for `c3_no_classification_repair` at the violating resort. -/
theorem c3_no_classification_repair_witness :
    oneFileState.files.length ≠ 0 ∧
    resortInResult bundleViolation bundleCandidate ∧
    (∃ pub, (processDocuments oneFileState (CollabOutcome.ok bundleCandidate)).result
        = some pub ∧ resortInResult bundleViolation pub) :=
  ⟨by decide, by decide,
    c3_no_classification_repair oneFileState bundleCandidate bundleViolation
      (by decide) (by decide)⟩

/-- C4, counterexample: the empty candidate `{locations: []}` is published
(`result` holds it, `error` is `none`) instead of the run returning
`EmptyResult`. -/
theorem c4_counterexample :
    (processDocuments oneFileState (CollabOutcome.ok emptyCandidate)).result
        = some emptyCandidate ∧
    (processDocuments oneFileState (CollabOutcome.ok emptyCandidate)).error = none ∧
    emptyCandidate.locations = some [] := by
  exact ⟨rfl, rfl, rfl⟩

/-- C4, amended: the published `locations` are exactly the candidate's
`locations` — an empty candidate is published as an empty result with no
`EmptyResult` error, and a nonempty candidate is published nonempty. -/
theorem c4_published_locations_eq_candidate (st : PortalState)
    (c : RawExtraction) (h : st.files.length ≠ 0) :
    Option.map RawExtraction.locations
        (processDocuments st (CollabOutcome.ok c)).result = some c.locations := by
  simp [processDocuments, preCallState, h]

/-- C4, witness for `c4_published_locations_eq_candidate` at the empty
candidate. -/
theorem c4_published_locations_eq_candidate_witness :
    oneFileState.files.length ≠ 0 ∧
    Option.map RawExtraction.locations
        (processDocuments oneFileState (CollabOutcome.ok emptyCandidate)).result
      = some emptyCandidate.locations :=
  ⟨by decide, c4_published_locations_eq_candidate oneFileState emptyCandidate (by decide)⟩

/-- C5, counterexample: invoking `processDocuments` while a run is already in
flight (`isProcessing = true`) is not rejected — it proceeds, publishes the
candidate, clears `error`, and flips the batch to `'completed'`, clobbering
the in-flight run's state.  No `RunAlreadyInProgress` error exists. -/
theorem c5_counterexample :
    inflightState.isProcessing = true ∧
    (processDocuments inflightState (CollabOutcome.ok emptyCandidate)).result
        = some emptyCandidate ∧
    (processDocuments inflightState (CollabOutcome.ok emptyCandidate)).files
        = [{ file := "brief.pdf", id := "f1", status := FileStatus.completed }] ∧
    (processDocuments inflightState (CollabOutcome.ok emptyCandidate)).error = none := by
  exact ⟨rfl, rfl, rfl, rfl⟩

/-- C5, amended: reentrancy is prevented only at the UI — whenever a run is
in flight the "Run Extraction" button is disabled — while
`processDocuments` itself has no reentrancy guard and no typed
`RunAlreadyInProgress` error. -/
theorem c5_ui_guard (st : PortalState) (h : st.isProcessing = true) :
    runButtonDisabled st = true := by
  simp [runButtonDisabled, h]

/-- C5, witness for `c5_ui_guard` at the in-flight state. -/
theorem c5_ui_guard_witness :
    inflightState.isProcessing = true ∧ runButtonDisabled inflightState = true :=
  ⟨rfl, c5_ui_guard inflightState rfl⟩

/-- C6, counterexample: invoking `processDocuments` on an empty batch returns
with the state untouched and `error` still `none` — the empty batch is
silently ignored, not surfaced as a typed `EmptyBatch` error. -/
theorem c6_counterexample :
    initState.files = [] ∧
    processDocuments initState (CollabOutcome.ok emptyCandidate) = initState ∧
    initState.error = none := by
  exact ⟨rfl, rfl, rfl⟩

/-- C6, amended: on an empty file list `processDocuments` is a silent no-op —
the state is returned unchanged for every collaborator outcome (so no
collaborator call is observable and no file status changes), and no
`EmptyBatch` error value exists to be surfaced. -/
theorem c6_empty_batch_silent_noop (st : PortalState) (outcome : CollabOutcome)
    (h : st.files.length = 0) :
    processDocuments st outcome = st := by
  simp [processDocuments, h]

/-- C6, witness for `c6_empty_batch_silent_noop` at the initial state. -/
theorem c6_empty_batch_silent_noop_witness :
    initState.files.length = 0 ∧
    processDocuments initState (CollabOutcome.failure none) = initState :=
  ⟨rfl, c6_empty_batch_silent_noop initState (CollabOutcome.failure none) rfl⟩

/-- C7, counterexample: `removeFile` removes a file whose status is
`'completed'` — removal is not restricted to the `'pending'` state. -/
theorem c7_counterexample :
    completedFileState.files
        = [{ file := "brief.pdf", id := "f1", status := FileStatus.completed }] ∧
    (removeFile completedFileState "f1").files = [] := by
  exact ⟨rfl, rfl⟩

/-- C7, amended: `removeFile id` keeps a file of the batch exactly when its
id differs from `id` — the file's lifecycle status plays no role in
removal. -/
theorem c7_remove_ignores_status (st : PortalState) (id : String)
    (f : FileWithStatus) (hf : f ∈ st.files) :
    f ∈ (removeFile st id).files ↔ f.id ≠ id := by
  simp [removeFile, List.mem_filter, hf]

/-- C7, witness for `c7_remove_ignores_status` at a completed file. -/
theorem c7_remove_ignores_status_witness :
    ({ file := "brief.pdf", id := "f1", status := FileStatus.completed } :
        FileWithStatus) ∈ completedFileState.files ∧
    (({ file := "brief.pdf", id := "f1", status := FileStatus.completed } :
        FileWithStatus) ∈ (removeFile completedFileState "f1").files ↔
      ({ file := "brief.pdf", id := "f1", status := FileStatus.completed } :
        FileWithStatus).id ≠ "f1") :=
  ⟨by decide,
    c7_remove_ignores_status completedFileState "f1"
      { file := "brief.pdf", id := "f1", status := FileStatus.completed } (by decide)⟩

/-- C8, counterexample: for the one-character token `"€"` (not a recognized
3-letter code) `formatCurrency` does not fall back to the string
`"€ 100"` — it silently formats the amount as `'USD'` instead. -/
theorem c8_counterexample :
    formatCurrency 100 "€" = CurrencyDisplay.intl "USD" 100 ∧
    CurrencyDisplay.intl "USD" 100 ≠ CurrencyDisplay.fallback "€" 100 := by
  constructor <;> decide

/-- C8, amended: the empty token, and every nonempty token whose uppercased
form does not have 3 characters, locale-format with `'USD'` (not the
fallback string); a token whose uppercased form is a well-formed 3-letter
code locale-formats with that code; the fallback string
`"<currency> <amount>"` is produced only for a 3-character token that is not
all letters (the only case where `Intl.NumberFormat` throws).  The formatter
is a pure function of its two arguments and never alters the stored data. -/
theorem c8_format_branches (amount : Int) (currency : String) :
    (currency = "" →
        formatCurrency amount currency = CurrencyDisplay.intl "USD" amount) ∧
    (currency ≠ "" → isWellFormedCurrencyCode (toUpperAscii currency) = true →
        formatCurrency amount currency
          = CurrencyDisplay.intl (toUpperAscii currency) amount) ∧
    (currency ≠ "" → (toUpperAscii currency).length ≠ 3 →
        formatCurrency amount currency = CurrencyDisplay.intl "USD" amount) ∧
    (currency ≠ "" → (toUpperAscii currency).length = 3 →
      isWellFormedCurrencyCode (toUpperAscii currency) = false →
        formatCurrency amount currency
          = CurrencyDisplay.fallback currency amount) := by
  refine ⟨?_, ?_, ?_, ?_⟩
  · intro he
    subst he
    rfl
  · intro hne hw
    have h3 : (toUpperAscii currency).length = 3 := by
      have h := hw
      unfold isWellFormedCurrencyCode at h
      rw [Bool.and_eq_true] at h
      simpa using h.1
    unfold formatCurrency
    simp only [if_neg hne]
    rw [if_pos h3, if_pos hw]
  · intro hne h3
    unfold formatCurrency
    simp only [if_neg hne]
    rw [if_neg h3, if_pos (by decide : isWellFormedCurrencyCode "USD" = true)]
  · intro hne h3 hw
    unfold formatCurrency
    simp only [if_neg hne]
    rw [if_pos h3, if_neg (by simp [hw])]

/-- C8, witness for `c8_format_branches` at the empty token, the token
`"eur"`, and the ill-formed 3-character token `"A1B"`. -/
theorem c8_format_branches_witness :
    formatCurrency 7 "" = CurrencyDisplay.intl "USD" 7 ∧
    formatCurrency 5 "eur" = CurrencyDisplay.intl (toUpperAscii "eur") 5 ∧
    formatCurrency 3 "A1B" = CurrencyDisplay.fallback "A1B" 3 :=
  ⟨(c8_format_branches 7 "").1 rfl,
   (c8_format_branches 5 "eur").2.1 (by decide) (by decide),
   (c8_format_branches 3 "A1B").2.2.2 (by decide) (by decide) (by decide)⟩

/-- Helper: a run either leaves the file list unchanged (empty batch or
failure) or marks every file `'completed'` (success). -/
theorem processDocuments_files (st : PortalState) (outcome : CollabOutcome) :
    (processDocuments st outcome).files = st.files ∨
    (processDocuments st outcome).files
      = st.files.map (fun f => { f with status := FileStatus.completed }) := by
  unfold processDocuments
  split
  · exact Or.inl rfl
  · cases outcome with
    | ok parsed => exact Or.inr rfl
    | failure msg => exact Or.inl rfl

/-- C9: in every reachable component state, every file's status is
`'pending'` or `'completed'` — ingestion assigns `'pending'`, a successful
run assigns `'completed'`, and no handler ever assigns the declared
`'processing'` or `'error'` statuses. -/
theorem c9_status_invariant (s : PortalState) (h : Reachable s) :
    ∀ f ∈ s.files, f.status = FileStatus.pending ∨ f.status = FileStatus.completed := by
  induction h with
  | init =>
      intro f hf
      simp [initState] at hf
  | step hs hstep ih =>
      cases hstep with
      | fileChange newFiles =>
          intro f hf
          simp only [onFileChange, List.mem_append, List.mem_map] at hf
          rcases hf with hmem | ⟨p, _, rfl⟩
          · exact ih f hmem
          · exact Or.inl rfl
      | remove id =>
          intro f hf
          simp only [removeFile, List.mem_filter] at hf
          exact ih f hf.1
      | process outcome =>
          intro f hf
          rcases processDocuments_files _ outcome with heq | heq
          · rw [heq] at hf
            exact ih f hf
          · rw [heq] at hf
            rcases List.mem_map.mp hf with ⟨g, _, rfl⟩
            exact Or.inr rfl
      | dismiss =>
          intro f hf
          exact ih f hf
      | tab t =>
          intro f hf
          exact ih f hf

/-- C9, witness for `c9_status_invariant`: the file held by the state reached
by ingesting one file and running a successful extraction. -/
theorem c9_status_invariant_witness :
    ({ file := "brief.pdf", id := "f1", status := FileStatus.completed } :
        FileWithStatus).status = FileStatus.pending ∨
    ({ file := "brief.pdf", id := "f1", status := FileStatus.completed } :
        FileWithStatus).status = FileStatus.completed :=
  c9_status_invariant
    (processDocuments (onFileChange initState [("brief.pdf", "f1")])
      (CollabOutcome.ok emptyCandidate))
    (Reachable.step
      (Reachable.step Reachable.init (Step.fileChange initState [("brief.pdf", "f1")]))
      (Step.process (onFileChange initState [("brief.pdf", "f1")])
        (CollabOutcome.ok emptyCandidate)))
    { file := "brief.pdf", id := "f1", status := FileStatus.completed }
    (by decide)

/-- C10: on a non-empty batch `processDocuments` clears `result` and `error`
before the collaborator call (`preCallState`), so a failed run ends with
`result = none` — the previously published result is not preserved — and a
successful run ends with `error = none`. -/
theorem c10_run_resets_result (st : PortalState) (h : st.files.length ≠ 0) :
    (preCallState st).result = none ∧ (preCallState st).error = none ∧
    (∀ msg, (processDocuments st (CollabOutcome.failure msg)).result = none) ∧
    (∀ c, (processDocuments st (CollabOutcome.ok c)).error = none) := by
  refine ⟨rfl, rfl, ?_, ?_⟩ <;> intro x <;> simp [processDocuments, preCallState, h]

/-- C10, witness for `c10_run_resets_result` at a state holding a previously
published result: after the failed run that result is gone. -/
theorem c10_run_resets_result_witness :
    priorResultState.result = some { locations := some [] } ∧
    (preCallState priorResultState).result = none ∧
    (preCallState priorResultState).error = none ∧
    (processDocuments priorResultState (CollabOutcome.failure none)).result = none ∧
    (processDocuments priorResultState (CollabOutcome.ok emptyCandidate)).error = none :=
  ⟨rfl,
   (c10_run_resets_result priorResultState (by decide)).1,
   (c10_run_resets_result priorResultState (by decide)).2.1,
   (c10_run_resets_result priorResultState (by decide)).2.2.1 none,
   (c10_run_resets_result priorResultState (by decide)).2.2.2 emptyCandidate⟩
